import Mathlib

/-!
Shallow embedding of the CKM-ECOM client-side cart, checkout and auth logic.

The definitions below are translated from the repository sources:
* `website-new/client/context/CartContext.tsx` — guest/authenticated cart operations
  (`addToCart`, `updateQuantity`, `removeFromCart`, `refreshCart`).
* `website-new/client/pages/Cart.tsx` (Checkout component) — the two-phase order/payment
  flow `handleCreateOrder` with its `orderInFlight` latch and Razorpay callbacks.
* `website-new/client/lib/api.ts` — the axios response interceptor (401 refresh-and-retry)
  and `ApiService.logout`.
* `website-new/client/context/AuthContext.tsx` — `logout`.
* the account page (`handleContinuePayment`) — retrying payment for a pending order.
* `mobile/lib/screens/checkout/checkout_screen.dart` — `_placeOrder` and the stepper
  continue handler.
* `mobile/lib/providers/order_provider.dart` — the Dio `onError` interceptor.

JavaScript numbers that only ever hold small non-negative integers (quantities, stock,
prices) are modelled as `Nat`.  Server calls are recorded in explicit call traces; the
server itself is an external collaborator, so its responses are parameters.  Purely
presentational effects (rendering) are elided; user-facing toasts are modelled by the
`Notice` type where a claim depends on them.
-/

namespace CKM

/-- Product as used by the cart (`CartContext.tsx`, `interface Product`). -/
structure Product where
  id : String
  name : String
  price : Nat
  images : List String
  slug : String
  stock : Nat
  is_active : Bool
deriving Repr, DecidableEq

/-- Cart item (`CartContext.tsx`, `interface CartItem`): the `id` is the server-side
item id, absent on guest items; `product` is the denormalized product snapshot. -/
structure CartItem where
  id : Option String
  product_id : String
  quantity : Nat
  product : Product
deriving Repr, DecidableEq

/-- User-facing toast notifications surfaced by the cart operations
(`toast.error` / `toast.success` calls in `CartContext.tsx`). -/
inductive Notice
  /-- Toast `'Product not available or out of stock'` (addToCart guard). -/
  | productNotAvailable
  /-- Toast `'Only N items available'` where `N` is the stock used for the check. -/
  | onlyStockAvailable (stock : Nat)
  /-- Toast `'Added to cart'`. -/
  | addedToCart
  /-- Toast `'Removed from cart'`. -/
  | removedFromCart
deriving Repr, DecidableEq

/-- Server calls issued by the cart layer (`apiService` methods in `api.ts`). -/
inductive ApiCall
  | addToCartCall (productId : String) (quantity : Nat)
  | updateCartItemCall (itemId : String) (quantity : Nat)
  | removeFromCartCall (itemId : String)
  | mergeCartCall (payload : List (String × Nat))
  | getCartCall
  | clearCartCall
deriving Repr, DecidableEq

/-- Client-side cart state: the React `items` state plus the `'guest_cart'` key of
`localStorage` (`none` = key absent, `some l` = the serialized item list). -/
structure GuestCart where
  items : List CartItem
  storage : Option (List CartItem)
deriving Repr, DecidableEq

/-- Result of one cart operation: the new client state, the server calls issued and the
toasts surfaced. -/
structure CartStep where
  state : GuestCart
  calls : List ApiCall
  notices : List Notice
deriving Repr, DecidableEq

/-- Guest branch of `addToCart` (`CartContext.tsx` lines 113–134): find the item by
`product_id` (`findIndex`), either bump its quantity (rejecting when the new total
exceeds the argument product's stock, otherwise capping at 10) or push a new item with
quantity capped at 10; then write both the React state and `localStorage`. -/
def addToCartGuest (st : GuestCart) (product : Product) (quantity : Nat) : CartStep :=
  let currentItems := st.items
  let existingIndex := currentItems.findIdx fun i => i.product_id == product.id
  if h : existingIndex < currentItems.length then
    let item := currentItems[existingIndex]
    let newQty := item.quantity + quantity
    if product.stock < newQty then
      { state := st, calls := [], notices := [Notice.onlyStockAvailable product.stock] }
    else
      let updated := currentItems.set existingIndex { item with quantity := min newQty 10 }
      { state := { items := updated, storage := some updated },
        calls := [], notices := [Notice.addedToCart] }
  else
    let updated := currentItems ++
      [{ id := none, product_id := product.id, quantity := min quantity 10, product := product }]
    { state := { items := updated, storage := some updated },
      calls := [], notices := [Notice.addedToCart] }

/-- Model of `addToCart` (`CartContext.tsx` lines 101–140).  The guard rejects inactive
products and requests beyond stock in both modes.  In authenticated mode the server is
called and the cart is refetched; `serverItems` stands for the server's cart response
(the server is outside this repository). -/
def addToCart (isLoggedIn : Bool) (serverItems : List CartItem) (st : GuestCart)
    (product : Product) (quantity : Nat) : CartStep :=
  if !product.is_active || product.stock < quantity then
    { state := st, calls := [], notices := [Notice.productNotAvailable] }
  else if isLoggedIn then
    { state := { st with items := serverItems },
      calls := [ApiCall.addToCartCall product.id quantity, ApiCall.getCartCall],
      notices := [Notice.addedToCart] }
  else
    addToCartGuest st product quantity

/-- Guest branch of `updateQuantity` (`CartContext.tsx` lines 152–164): find the item by
`product_id`, reject the new quantity with a toast when it exceeds the stored snapshot's
stock, otherwise overwrite the quantity and rewrite `localStorage`. -/
def updateQuantityGuest (st : GuestCart) (productId : String) (quantity : Nat) : CartStep :=
  let currentItems := st.items
  let index := currentItems.findIdx fun i => i.product_id == productId
  if h : index < currentItems.length then
    let item := currentItems[index]
    if item.product.stock < quantity then
      { state := st, calls := [], notices := [Notice.onlyStockAvailable item.product.stock] }
    else
      let updated := currentItems.set index { item with quantity := quantity }
      { state := { items := updated, storage := some updated }, calls := [], notices := [] }
  else
    { state := st, calls := [], notices := [] }

/-- Model of `updateQuantity` (`CartContext.tsx` lines 142–169).  Quantities below 1 are
silently dropped (`if (quantity < 1) return;`).  In authenticated mode the update is
delegated to the server when the item has a server id. -/
def updateQuantity (isLoggedIn : Bool) (serverItems : List CartItem) (st : GuestCart)
    (productId : String) (quantity : Nat) : CartStep :=
  if quantity < 1 then
    { state := st, calls := [], notices := [] }
  else if isLoggedIn then
    match st.items.find? fun i => i.product_id == productId with
    | some item =>
      match item.id with
      | some itemId =>
        { state := { st with items := serverItems },
          calls := [ApiCall.updateCartItemCall itemId quantity, ApiCall.getCartCall],
          notices := [] }
      | none => { state := st, calls := [], notices := [] }
    | none => { state := st, calls := [], notices := [] }
  else
    updateQuantityGuest st productId quantity

/-- Guest branch of `removeFromCart` (`CartContext.tsx` lines 180–185): filter the item
out and rewrite `localStorage`. -/
def removeFromCartGuest (st : GuestCart) (productId : String) : CartStep :=
  let newItems := st.items.filter fun i => !(i.product_id == productId)
  { state := { items := newItems, storage := some newItems },
    calls := [], notices := [Notice.removedFromCart] }

/-- Model of `removeFromCart` (`CartContext.tsx` lines 171–190). -/
def removeFromCart (isLoggedIn : Bool) (serverItems : List CartItem) (st : GuestCart)
    (productId : String) : CartStep :=
  if isLoggedIn then
    match st.items.find? fun i => i.product_id == productId with
    | some item =>
      match item.id with
      | some itemId =>
        { state := { st with items := serverItems },
          calls := [ApiCall.removeFromCartCall itemId, ApiCall.getCartCall],
          notices := [Notice.removedFromCart] }
      | none => { state := st, calls := [], notices := [] }
    | none => { state := st, calls := [], notices := [] }
  else
    removeFromCartGuest st productId

/-- Guest-cart operations, for reasoning about arbitrary operation sequences. -/
inductive CartOp
  | add (product : Product) (quantity : Nat)
  | update (productId : String) (quantity : Nat)
  | remove (productId : String)
deriving Repr, DecidableEq

/-- Apply one operation in guest mode (`isLoggedIn = false`; the server-response
parameter is irrelevant in guest mode). -/
def applyOp (st : GuestCart) : CartOp → GuestCart
  | CartOp.add p q => (addToCart false [] st p q).state
  | CartOp.update pid q => (updateQuantity false [] st pid q).state
  | CartOp.remove pid => (removeFromCart false [] st pid).state

/-- Initial guest cart: no items, no `'guest_cart'` key. -/
def emptyCart : GuestCart := { items := [], storage := none }

/-- Run a sequence of guest-cart operations from the empty cart. -/
def runOps (ops : List CartOp) : GuestCart := ops.foldl applyOp emptyCart

/-- Demo product used by concrete witnesses: active, stock 20. -/
def pDemo : Product :=
  { id := "p1", name := "Bead", price := 100, images := [], slug := "bead",
    stock := 20, is_active := true }

/-! ## Cart merge on login (`refreshCart`, `CartContext.tsx` lines 51–99) -/

/-- Contents of the `'guest_cart'` key of `localStorage` at login: absent, present but
not valid JSON (so `JSON.parse` throws), or a parsed item list. -/
inductive StoredCart
  | absent
  | corrupt
  | val (items : List CartItem)
deriving Repr, DecidableEq

/-- Merge payload built from the guest items (`refreshCart` lines 61–64): each guest
item contributes its `product_id` and `quantity`. -/
def mergePayload (items : List CartItem) : List (String × Nat) :=
  items.map fun item => (item.product_id, item.quantity)

/-- Result of `refreshCart` in the logged-in branch.  `mergeOutcome` records whether a
merge call was issued and, if so, whether it succeeded (`some false` = the call threw
and was swallowed by the inner `catch`). -/
structure RefreshResult where
  calls : List ApiCall
  store : StoredCart
  items : List CartItem
  mergeOutcome : Option Bool
deriving Repr, DecidableEq

/-- Logged-in branch of `refreshCart` (`CartContext.tsx` lines 54–78): if a guest cart
is stored, parse it and — when non-empty — send one `mergeCart` call; the inner `catch`
swallows both parse and merge errors and the inner `finally` always removes the
`'guest_cart'` key; then the server cart is fetched and becomes the item state.
`mergeOk` is the outcome of the merge call (it only selects whether the `catch` branch
logs), and `serverItems` is the `getCart` response. -/
def refreshCart (store : StoredCart) (mergeOk : Bool) (serverItems : List CartItem) :
    RefreshResult :=
  match store with
  | StoredCart.absent =>
    { calls := [ApiCall.getCartCall], store := StoredCart.absent, items := serverItems,
      mergeOutcome := none }
  | StoredCart.corrupt =>
    { calls := [ApiCall.getCartCall], store := StoredCart.absent, items := serverItems,
      mergeOutcome := none }
  | StoredCart.val guestItems =>
    if guestItems.length > 0 then
      { calls := [ApiCall.mergeCartCall (mergePayload guestItems), ApiCall.getCartCall],
        store := StoredCart.absent, items := serverItems, mergeOutcome := some mergeOk }
    else
      { calls := [ApiCall.getCartCall], store := StoredCart.absent, items := serverItems,
        mergeOutcome := none }

/-! ## Checkout / payment flow (`handleCreateOrder`, Cart.tsx Checkout component)

The web checkout is single-threaded and event-driven: `handleCreateOrder` runs up to an
`await`, and further UI events (more submit clicks, promise resolutions, Razorpay
callbacks) are processed in between.  The machine below has one phase per await point of
`handleCreateOrder`; `press` is a click on the submit button, the `…Resp` events are the
resolutions of the awaited calls, and `paySuccess` / `dismiss` / `payFailed` are the
Razorpay callbacks.  Toasts are elided here (they are presentational only). -/

/-- Server calls issued by the checkout flow. -/
inductive PayCall
  | createOrderCall
  | createPaymentCall
  | verifyPaymentCall
  | clearCartCall
deriving Repr, DecidableEq

/-- Await points of `handleCreateOrder`: `idle` = not in flight; the others are the
phases between issuing a call and receiving its result, and `modalOpen` is the Razorpay
widget being open. -/
inductive Phase
  | idle
  | creatingOrder
  | creatingPayment
  | loadingScript
  | modalOpen
deriving Repr, DecidableEq

/-- Checkout component state: the `orderInFlight` ref and `processing` flag, the
selected address, the cart (cleared by `clearCart`), the `paymentJustCompleted` ref and
the `orderSuccess` popup flag. -/
structure CheckoutState where
  phase : Phase
  orderInFlight : Bool
  processing : Bool
  selectedAddress : Bool
  cart : List CartItem
  paymentJustCompleted : Bool
  orderSuccess : Bool
deriving Repr, DecidableEq

/-- Events driving the checkout flow. -/
inductive CheckoutEv
  | press
  | orderResp (ok : Bool)
  | paymentResp (ok : Bool)
  | scriptResp (ok : Bool)
  | paySuccess (verifyOk : Bool)
  | dismiss
  | payFailed
deriving Repr, DecidableEq

/-- Release the latch: `setProcessing(false); orderInFlight.current = false` —
executed by every failure path, the verification handler's `finally`, `ondismiss` and
the `payment.failed` listener. -/
def releaseLatch (s : CheckoutState) : CheckoutState :=
  { s with phase := Phase.idle, orderInFlight := false, processing := false }

/-- One step of the checkout flow (`handleCreateOrder` and its callbacks).  A `press`
while `orderInFlight.current || processing` returns immediately with no call; events
that do not belong to the current phase cannot occur and leave the state unchanged. -/
def checkoutStep (s : CheckoutState) : CheckoutEv → CheckoutState × List PayCall
  | CheckoutEv.press =>
    if !s.selectedAddress then (s, [])
    else if s.orderInFlight || s.processing then (s, [])
    else ({ s with phase := Phase.creatingOrder, orderInFlight := true, processing := true },
          [PayCall.createOrderCall])
  | CheckoutEv.orderResp ok =>
    if s.phase = Phase.creatingOrder then
      if ok then ({ s with phase := Phase.creatingPayment }, [PayCall.createPaymentCall])
      else (releaseLatch s, [])
    else (s, [])
  | CheckoutEv.paymentResp ok =>
    if s.phase = Phase.creatingPayment then
      if ok then ({ s with phase := Phase.loadingScript }, [])
      else (releaseLatch s, [])
    else (s, [])
  | CheckoutEv.scriptResp ok =>
    if s.phase = Phase.loadingScript then
      if ok then ({ s with phase := Phase.modalOpen }, [])
      else (releaseLatch s, [])
    else (s, [])
  | CheckoutEv.paySuccess verifyOk =>
    if s.phase = Phase.modalOpen then
      if verifyOk then
        ({ releaseLatch s with paymentJustCompleted := true, cart := [], orderSuccess := true },
         [PayCall.verifyPaymentCall, PayCall.clearCartCall])
      else (releaseLatch s, [PayCall.verifyPaymentCall])
    else (s, [])
  | CheckoutEv.dismiss =>
    if s.phase = Phase.modalOpen then (releaseLatch s, []) else (s, [])
  | CheckoutEv.payFailed =>
    if s.phase = Phase.modalOpen then (releaseLatch s, []) else (s, [])

/-- Run a sequence of checkout events, concatenating the issued calls. -/
def runEvents (s : CheckoutState) : List CheckoutEv → CheckoutState × List PayCall
  | [] => (s, [])
  | e :: es =>
    let r1 := checkoutStep s e
    let r2 := runEvents r1.1 es
    (r2.1, r1.2 ++ r2.2)

/-- Checkout state on entering the summary step: latch free, an address selected, the
cart as loaded. -/
def initialCheckout (cart : List CartItem) : CheckoutState :=
  { phase := Phase.idle, orderInFlight := false, processing := false,
    selectedAddress := true, cart := cart, paymentJustCompleted := false,
    orderSuccess := false }

/-! ## Retrying a pending order (`handleContinuePayment`, account page) -/

/-- Account-page state for the continue-payment flow: its own `paymentInFlight` ref and
the `payingOrderId` spinner state. -/
structure AccountState where
  paymentInFlight : Bool
  payingOrderId : Option String
deriving Repr, DecidableEq

/-- Entry of `handleContinuePayment` for a pending order: guarded by `paymentInFlight`,
it issues a new `createPayment` call for the order's existing id. -/
def continuePayment (s : AccountState) (orderId : String) : AccountState × List PayCall :=
  if s.paymentInFlight then (s, [])
  else ({ paymentInFlight := true, payingOrderId := some orderId }, [PayCall.createPaymentCall])

/-! ## Mobile checkout (`checkout_screen.dart`) -/

/-- Mobile checkout screen state (`_CheckoutScreenState`). -/
structure MobileCheckout where
  currentStep : Nat
  isProcessing : Bool
  selectedAddressId : Option String
deriving Repr, DecidableEq

/-- Entry of `_placeOrder` (checkout_screen.dart lines 38–49): it checks only that an
address is selected, sets `_isProcessing = true` and awaits `createOrder` — there is no
check of `_isProcessing` at entry. -/
def placeOrder (s : MobileCheckout) : MobileCheckout × List PayCall :=
  match s.selectedAddressId with
  | none => (s, [])
  | some _ => ({ s with isProcessing := true }, [PayCall.createOrderCall])

/-- The stepper's continue handler (checkout_screen.dart lines 83–89): advance the step,
or at the last step call `_placeOrder()` unconditionally (the handler does not consult
`_isProcessing`; only the separate payment button is disabled while processing). -/
def stepperContinue (s : MobileCheckout) : MobileCheckout × List PayCall :=
  if s.currentStep < 2 then ({ s with currentStep := s.currentStep + 1 }, [])
  else placeOrder s

/-- Mobile checkout at the final stepper step with an address selected and a
`createOrder` call already in flight is reachable by one continue press from the
corresponding non-processing state. -/
def mobileDemo : MobileCheckout :=
  { currentStep := 2, isProcessing := false, selectedAddressId := some "a1" }

/-! ## HTTP 401 handling

Web client: the axios response interceptor of `ApiService` (`api.ts` lines 29–61).
Mobile client: the Dio `onError` interceptor (`order_provider.dart`). -/

/-- Response statuses relevant to the interceptors. -/
inductive HttpStatus
  | ok
  | unauthorized
  | serverError
deriving Repr, DecidableEq

/-- Token storage (`access_token` / `refresh_token` keys). -/
structure TokenStore where
  access : Option String
  refresh : Option String
deriving Repr, DecidableEq

/-- Observable actions of the interceptors. -/
inductive AuthAction
  | refreshCall
  | retryCall
  | clearTokens
  | redirectLogin
deriving Repr, DecidableEq

/-- Outcome of a request as seen by the caller. -/
inductive ReqOutcome
  | success
  | failure (status : HttpStatus)
deriving Repr, DecidableEq

/-- Outcome for a plain (non-retried) response. -/
def statusOutcome (status : HttpStatus) : ReqOutcome :=
  if status = HttpStatus.ok then ReqOutcome.success else ReqOutcome.failure status

/-- Model of the axios response interceptor for one original request (`api.ts` lines
29–61).  `retryFlag` is `originalRequest._retry`; `firstStatus` is the response to the
original request; `refreshResult` is the refresh endpoint's response (`none` = it
threw); `retryStatus` is the response to the retried request.  The retried request goes
through the interceptor again with `_retry = true`, so a second 401 is rejected without
another refresh — that second pass is inlined here as `statusOutcome retryStatus`. -/
def handleResponse (store : TokenStore) (retryFlag : Bool) (firstStatus : HttpStatus)
    (refreshResult : Option (String × Option String)) (retryStatus : HttpStatus) :
    TokenStore × List AuthAction × ReqOutcome :=
  if firstStatus = HttpStatus.unauthorized && !retryFlag then
    match refreshResult with
    | some (newAccess, newRefresh) =>
      let store1 : TokenStore :=
        { access := some newAccess,
          refresh := match newRefresh with | some r => some r | none => store.refresh }
      (store1, [AuthAction.refreshCall, AuthAction.retryCall], statusOutcome retryStatus)
    | none =>
      ({ access := none, refresh := none },
       [AuthAction.refreshCall, AuthAction.clearTokens, AuthAction.redirectLogin],
       ReqOutcome.failure firstStatus)
  else
    (store, [], statusOutcome firstStatus)

/-- Model of the mobile Dio `onError` interceptor (`order_provider.dart`): on a 401 it
calls `_refreshToken()`; on refresh success it retries via `_dio.fetch`, which goes
through the interceptors again — there is no retry flag, so each 401 response triggers
another refresh.  `responses` is the sequence of statuses the server returns for the
original request and its retries; `refreshOk` is whether `_refreshToken` succeeds. -/
def dioSend (responses : List HttpStatus) (refreshOk : Bool) : List AuthAction × ReqOutcome :=
  match responses with
  | [] => ([], ReqOutcome.failure HttpStatus.serverError)
  | r :: rest =>
    if r = HttpStatus.unauthorized then
      if refreshOk then
        let r2 := dioSend rest refreshOk
        (AuthAction.refreshCall :: AuthAction.retryCall :: r2.1, r2.2)
      else ([AuthAction.refreshCall], ReqOutcome.failure HttpStatus.unauthorized)
    else ([], statusOutcome r)

/-! ## Logout (`AuthContext.tsx` lines 34–45 and `ApiService.logout`, `api.ts` 76–83) -/

/-- Auth-related client state: tokens, the `isLoggedIn` flag and the react-query cache
(one entry per cached query). -/
structure AuthState where
  access : Option String
  refresh : Option String
  isLoggedIn : Bool
  queryCache : List String
deriving Repr, DecidableEq

/-- Model of `ApiService.logout` (`api.ts` lines 76–83): posts to the logout endpoint
and in its `finally` removes both tokens; `serverOk` is whether the post succeeds, and
is returned so the caller sees whether the awaited call threw. -/
def apiLogout (serverOk : Bool) (st : AuthState) : AuthState × Bool :=
  ({ st with access := none, refresh := none }, serverOk)

/-- Model of `AuthContext.logout` (`AuthContext.tsx` lines 34–45): it awaits
`apiService.logout()`, catches any error (`// Force logout even if API call fails`),
and in its `finally` removes both tokens, sets `isLoggedIn` to false and clears the
react-query cache — the same updates on every path. -/
def logout (serverOk : Bool) (st : AuthState) : AuthState :=
  let r := apiLogout serverOk st
  { r.1 with access := none, refresh := none, isLoggedIn := false, queryCache := [] }

/-! ## Invariants and concrete inputs used by the theorems -/

/-- Consistency of an operation sequence with a product catalog `cat`: every `add`
passes the catalog's product for its id.  (Within one page session all `addToCart`
calls for a product use the same product object fetched from the server.) -/
def ConsistentOps (cat : String → Product) (ops : List CartOp) : Prop :=
  ∀ p q, CartOp.add p q ∈ ops → cat p.id = p

/-- Guest-cart invariant: every item's snapshot is the catalog product for its id, and
its quantity does not exceed that product's stock. -/
def CartInv (cat : String → Product) (st : GuestCart) : Prop :=
  ∀ it ∈ st.items, it.product = cat it.product_id ∧ it.quantity ≤ it.product.stock

/-- Product ids stored in a cart, in order. -/
def cartIds (st : GuestCart) : List String :=
  st.items.map fun it => it.product_id

/-- Operation sequence driving `updateQuantity` past the cap of 10: add one unit of a
stock-20 product, then update its quantity to 15. -/
def demoOps : List CartOp :=
  [CartOp.add pDemo 1, CartOp.update "p1" 15]

/-- Guest cart holding one unit of `pDemo`. -/
def demoCart : GuestCart := runOps [CartOp.add pDemo 1]

/-- Checkout state with the Razorpay widget open (reached from `initialCheckout` by a
press and successful order, payment and script steps). -/
def modalDemo : CheckoutState :=
  { phase := Phase.modalOpen, orderInFlight := true, processing := true,
    selectedAddress := true, cart := demoCart.items, paymentJustCompleted := false,
    orderSuccess := false }

/-- Submission burst: a first click on the place-order button, then `n1` further clicks
while `createOrder` is awaited, `n2` while `createPayment` is awaited, `n3` while the
Razorpay script loads, and `n4` while the widget is open. -/
def burstEvents (n1 n2 n3 n4 : Nat) : List CheckoutEv :=
  CheckoutEv.press :: (List.replicate n1 CheckoutEv.press ++
    (CheckoutEv.orderResp true :: (List.replicate n2 CheckoutEv.press ++
      (CheckoutEv.paymentResp true :: (List.replicate n3 CheckoutEv.press ++
        (CheckoutEv.scriptResp true :: List.replicate n4 CheckoutEv.press))))))

/-- Checkout state in flight at a given phase: latch and processing set, address
selected. -/
def inflightAt (cart : List CartItem) (ph : Phase) : CheckoutState :=
  { phase := ph, orderInFlight := true, processing := true, selectedAddress := true,
    cart := cart, paymentJustCompleted := false, orderSuccess := false }

/-! # Helper lemmas -/

/-- Setting an index of a list to the element already stored there is the identity. -/
theorem set_get_self {α : Type _} : ∀ (l : List α) (i : Nat) (h : i < l.length),
    l.set i (l.get ⟨i, h⟩) = l
  | [], _, h => absurd h (by simp)
  | _ :: _, 0, _ => rfl
  | a :: l, i + 1, h => by
    show a :: l.set i (l.get ⟨i, Nat.lt_of_succ_lt_succ h⟩) = a :: l
    rw [set_get_self l i (Nat.lt_of_succ_lt_succ h)]

/-- Mapping a function over a `set` whose new value maps like the old one leaves the
mapped list unchanged. -/
theorem map_set_eq {α β : Type _} (l : List α) (i : Nat) (a : α) (f : α → β)
    (h : i < l.length) (hf : f a = f (l.get ⟨i, h⟩)) :
    (l.set i a).map f = l.map f := by
  have h2 : i < (l.map f).length := by simpa using h
  have hg : f (l.get ⟨i, h⟩) = (l.map f).get ⟨i, h2⟩ := by
    simp [List.get_eq_getElem, List.getElem_map]
  rw [List.map_set, hf, hg, set_get_self]

/-- Preservation of the cart invariant by a guest-mode `addToCart`, provided the added
product is the catalog product for its id. -/
theorem addToCart_inv {cat : String → Product} {st : GuestCart} {p : Product} {q : Nat}
    (hp : cat p.id = p) (hinv : CartInv cat st) :
    CartInv cat (addToCart false [] st p q).state := by
  unfold addToCart
  split
  · exact hinv
  · next hguard =>
    have hstock : ¬ p.stock < q := by
      intro hlt
      exact hguard (by simp [hlt])
    show CartInv cat (addToCartGuest st p q).state
    unfold addToCartGuest
    dsimp only
    split
    · next h =>
      split
      · exact hinv
      · next h2 =>
        intro it hit
        rcases List.mem_or_eq_of_mem_set hit with hmem | heq
        · exact hinv it hmem
        · have hpred : ((st.items.get ⟨st.items.findIdx fun i => i.product_id == p.id, h⟩).product_id
              == p.id) = true :=
            List.findIdx_getElem (w := h)
          have hmem0 : st.items.get ⟨st.items.findIdx fun i => i.product_id == p.id, h⟩ ∈ st.items :=
            List.get_mem _ _ _
          have hold := hinv _ hmem0
          have hid : (st.items.get ⟨st.items.findIdx fun i => i.product_id == p.id, h⟩).product_id
              = p.id := by simpa using hpred
          subst heq
          refine ⟨hold.1, ?_⟩
          have hprod : (st.items.get ⟨st.items.findIdx fun i => i.product_id == p.id, h⟩).product
              = p := by
            rw [hold.1, hid, hp]
          simp only [List.get_eq_getElem] at hprod hold ⊢
          simp only [hprod]
          exact Nat.le_trans (Nat.min_le_left _ _) (Nat.le_of_not_lt h2)
    · next h =>
      intro it hit
      rcases List.mem_append.mp hit with hmem | hnew
      · exact hinv it hmem
      · have heq : it = { id := none, product_id := p.id, quantity := min q 10, product := p } := by
          simpa using hnew
        subst heq
        exact ⟨hp.symm, Nat.le_trans (Nat.min_le_left _ _) (Nat.le_of_not_lt hstock)⟩

/-- Preservation of the cart invariant by a guest-mode `updateQuantity`. -/
theorem updateQuantity_inv {cat : String → Product} {st : GuestCart} {pid : String} {q : Nat}
    (hinv : CartInv cat st) :
    CartInv cat (updateQuantity false [] st pid q).state := by
  unfold updateQuantity
  split
  · exact hinv
  · show CartInv cat (updateQuantityGuest st pid q).state
    unfold updateQuantityGuest
    dsimp only
    split
    · next h =>
      split
      · exact hinv
      · next h2 =>
        intro it hit
        rcases List.mem_or_eq_of_mem_set hit with hmem | heq
        · exact hinv it hmem
        · have hmem0 : st.items.get ⟨st.items.findIdx fun i => i.product_id == pid, h⟩ ∈ st.items :=
            List.get_mem _ _ _
          have hold := hinv _ hmem0
          subst heq
          exact ⟨hold.1, Nat.le_of_not_lt h2⟩
    · exact hinv

/-- Preservation of the cart invariant by a guest-mode `removeFromCart`. -/
theorem removeFromCart_inv {cat : String → Product} {st : GuestCart} {pid : String}
    (hinv : CartInv cat st) :
    CartInv cat (removeFromCart false [] st pid).state := by
  show CartInv cat (removeFromCartGuest st pid).state
  unfold removeFromCartGuest
  dsimp only
  intro it hit
  exact hinv it (List.mem_of_mem_filter hit)

/-- The cart invariant holds after any consistent operation sequence from an invariant
state. -/
theorem foldl_inv {cat : String → Product} : ∀ (ops : List CartOp) (st : GuestCart),
    CartInv cat st → ConsistentOps cat ops → CartInv cat (ops.foldl applyOp st)
  | [], _, hinv, _ => hinv
  | op :: ops, st, hinv, hcons => by
    have h1 : CartInv cat (applyOp st op) := by
      cases op with
      | add p q => exact addToCart_inv (hcons p q (List.mem_cons_self _ _)) hinv
      | update pid q => exact updateQuantity_inv hinv
      | remove pid => exact removeFromCart_inv hinv
    exact foldl_inv ops (applyOp st op) h1 fun p q hm => hcons p q (List.mem_cons_of_mem _ hm)

/-- Guest-mode `addToCart` preserves distinctness of the stored product ids. -/
theorem addToCart_nodup {st : GuestCart} {p : Product} {q : Nat}
    (hnd : (cartIds st).Nodup) : (cartIds (addToCart false [] st p q).state).Nodup := by
  unfold addToCart
  split
  · exact hnd
  · show (cartIds (addToCartGuest st p q).state).Nodup
    unfold addToCartGuest
    dsimp only
    split
    · next h =>
      split
      · exact hnd
      · unfold cartIds
        dsimp only
        rw [map_set_eq _ _ _ _ h]
        · exact hnd
        · rfl
    · next h =>
      unfold cartIds
      dsimp only
      rw [List.map_append]
      refine List.Nodup.append hnd (List.nodup_singleton _) ?_
      intro a ha hb
      have hb2 : a = p.id := by simpa using hb
      subst hb2
      have hlen : (st.items.findIdx fun i => i.product_id == p.id) = st.items.length :=
        Nat.le_antisymm (List.findIdx_le_length _) (Nat.le_of_not_lt h)
      have hall := List.findIdx_eq_length.mp hlen
      rcases List.mem_map.mp ha with ⟨it, hitmem, hid⟩
      have hfalse := hall it hitmem
      rw [hid] at hfalse
      simp at hfalse

/-- Guest-mode `updateQuantity` preserves distinctness of the stored product ids. -/
theorem updateQuantity_nodup {st : GuestCart} {pid : String} {q : Nat}
    (hnd : (cartIds st).Nodup) : (cartIds (updateQuantity false [] st pid q).state).Nodup := by
  unfold updateQuantity
  split
  · exact hnd
  · show (cartIds (updateQuantityGuest st pid q).state).Nodup
    unfold updateQuantityGuest
    dsimp only
    split
    · next h =>
      split
      · exact hnd
      · unfold cartIds
        dsimp only
        rw [map_set_eq _ _ _ _ h]
        · exact hnd
        · rfl
    · exact hnd

/-- Guest-mode `removeFromCart` preserves distinctness of the stored product ids. -/
theorem removeFromCart_nodup {st : GuestCart} {pid : String}
    (hnd : (cartIds st).Nodup) : (cartIds (removeFromCart false [] st pid).state).Nodup := by
  show (cartIds (removeFromCartGuest st pid).state).Nodup
  unfold removeFromCartGuest cartIds
  dsimp only
  exact List.Nodup.sublist (List.Sublist.map _ (List.filter_sublist _)) hnd

/-- Distinctness of product ids is preserved along any guest operation sequence. -/
theorem foldl_nodup : ∀ (ops : List CartOp) (st : GuestCart),
    (cartIds st).Nodup → (cartIds (ops.foldl applyOp st)).Nodup
  | [], _, h => h
  | op :: ops, st, h => by
    have h1 : (cartIds (applyOp st op)).Nodup := by
      cases op with
      | add p q => exact addToCart_nodup h
      | update pid q => exact updateQuantity_nodup h
      | remove pid => exact removeFromCart_nodup h
    exact foldl_nodup ops _ h1

/-! # Claim theorems -/

/-- C1, counterexample: from the empty guest cart, `addToCart pDemo 1` (stock 20)
followed by `updateQuantity "p1" 15` leaves an item with quantity 15, violating the
claimed bound `min(stock, 10) = 10`: the guest branch of `updateQuantity` checks only
the snapshot's stock, never the hard cap of 10. -/
theorem updateQuantity_breaks_cap :
    ((runOps demoOps).items.all fun it => it.quantity ≤ min it.product.stock 10) = false := by
  decide

/-- C1 (amended): under a consistent catalog (each `add` for a given product id passes
the same product), every item of a guest cart reachable from the empty cart has
quantity at most its product's stock.  The hard cap of 10 holds for quantities set by
`addToCart` but not for those set by `updateQuantity` (see the counterexample), so only
the stock bound is invariant. -/
theorem guest_cart_stock_invariant (cat : String → Product) (ops : List CartOp)
    (hcat : ConsistentOps cat ops) :
    ∀ it ∈ (runOps ops).items, it.quantity ≤ it.product.stock :=
  fun it hit =>
    (foldl_inv ops emptyCart (fun _ h => absurd h (List.not_mem_nil _)) hcat it hit).2

/-- Witness: the amended C1 bound evaluated on the concrete demo operations. -/
theorem guest_cart_stock_invariant_witness :
    ((runOps demoOps).items.all fun it => it.quantity ≤ it.product.stock) = true := by
  have hc : ConsistentOps (fun _ => pDemo) demoOps := by
    intro p q hm
    simp only [demoOps, List.mem_cons, List.not_mem_nil, or_false] at hm
    rcases hm with h1 | h1
    · cases h1
      rfl
    · cases h1
  have h := guest_cart_stock_invariant (fun _ => pDemo) demoOps hc
  exact List.all_eq_true.mpr fun it hit => decide_eq_true (h it hit)

/-- C8: in every guest cart reachable from the empty cart, no two entries share a
`product_id`; hence the merge payload built from it at login mentions each `product_id`
at most once, and the logged-in `refreshCart` always ends with the `'guest_cart'` key
removed. -/
theorem guest_cart_ids_unique (ops : List CartOp) :
    (cartIds (runOps ops)).Nodup ∧
    ((mergePayload (runOps ops).items).map Prod.fst).Nodup ∧
    ∀ (mergeOk : Bool) (serverItems : List CartItem),
      (refreshCart (StoredCart.val (runOps ops).items) mergeOk serverItems).store =
        StoredCart.absent := by
  have h1 : (cartIds (runOps ops)).Nodup :=
    foldl_nodup ops emptyCart (by simp [cartIds, emptyCart])
  refine ⟨h1, ?_, ?_⟩
  · have h2 : (mergePayload (runOps ops).items).map Prod.fst = cartIds (runOps ops) := by
      unfold mergePayload cartIds
      rw [List.map_map]
      rfl
    rw [h2]
    exact h1
  · intro mergeOk serverItems
    unfold refreshCart
    dsimp only
    split <;> rfl

/-- Unfolding equation of `runEvents` on a cons cell. -/
theorem runEvents_cons (s : CheckoutState) (e : CheckoutEv) (es : List CheckoutEv) :
    runEvents s (e :: es) =
      ((runEvents (checkoutStep s e).1 es).1,
        (checkoutStep s e).2 ++ (runEvents (checkoutStep s e).1 es).2) := rfl

/-- Calls of an event sequence split across an append. -/
theorem runEvents_append (s : CheckoutState) (l1 l2 : List CheckoutEv) :
    runEvents s (l1 ++ l2) =
      ((runEvents (runEvents s l1).1 l2).1,
        (runEvents s l1).2 ++ (runEvents (runEvents s l1).1 l2).2) := by
  induction l1 generalizing s with
  | nil => simp [runEvents]
  | cons e es ih =>
    simp only [List.cons_append, runEvents_cons]
    rw [ih]
    simp [List.append_assoc]

/-- A press while the latch is set returns immediately: no state change, no call. -/
theorem press_inflight {s : CheckoutState} (h : s.orderInFlight = true) :
    checkoutStep s CheckoutEv.press = (s, []) := by
  unfold checkoutStep
  cases hsel : s.selectedAddress <;> simp [hsel, h]

/-- Any number of presses while the latch is set is a no-op. -/
theorem presses_noop {s : CheckoutState} (h : s.orderInFlight = true) :
    ∀ n : Nat, runEvents s (List.replicate n CheckoutEv.press) = (s, [])
  | 0 => rfl
  | n + 1 => by
    rw [List.replicate_succ, runEvents_cons, press_inflight h]
    dsimp only
    rw [presses_noop h n]
    rfl

/-- C2, counterexample: in the mobile checkout at the final stepper step, two
continue taps in a row — the second arriving while the first `createOrder` call is
still awaited — issue two order-creation calls: `_placeOrder` has no entry check of
`_isProcessing`, and the stepper's continue handler calls it unconditionally. -/
theorem mobile_double_order :
    ((stepperContinue mobileDemo).2 ++
      (stepperContinue (stepperContinue mobileDemo).1).2).count PayCall.createOrderCall = 2 := by
  decide

/-- C2 (amended, web client): for a burst of place-order clicks — one click and then
any number of further clicks while the order call, payment call and script load are in
flight — exactly one `createOrder` and one `createPayment` call are issued, because the
`orderInFlight`/`processing` latch makes every later press return immediately; after
the latch is released (here by dismissal) a new press may start a new order. -/
theorem web_checkout_single_order (cart : List CartItem) (n1 n2 n3 n4 : Nat) :
    ((runEvents (initialCheckout cart) (burstEvents n1 n2 n3 n4)).2.count
        PayCall.createOrderCall = 1) ∧
    ((runEvents (initialCheckout cart) (burstEvents n1 n2 n3 n4)).2.count
        PayCall.createPaymentCall = 1) ∧
    ((runEvents (initialCheckout cart)
        (burstEvents n1 n2 n3 n4 ++ [CheckoutEv.dismiss, CheckoutEv.press])).2.count
        PayCall.createOrderCall = 2) := by
  have step1 : checkoutStep (initialCheckout cart) CheckoutEv.press =
      (inflightAt cart Phase.creatingOrder, [PayCall.createOrderCall]) := rfl
  have step2 : checkoutStep (inflightAt cart Phase.creatingOrder) (CheckoutEv.orderResp true) =
      (inflightAt cart Phase.creatingPayment, [PayCall.createPaymentCall]) := rfl
  have step3 : checkoutStep (inflightAt cart Phase.creatingPayment) (CheckoutEv.paymentResp true) =
      (inflightAt cart Phase.loadingScript, []) := rfl
  have step4 : checkoutStep (inflightAt cart Phase.loadingScript) (CheckoutEv.scriptResp true) =
      (inflightAt cart Phase.modalOpen, []) := rfl
  have step5 : checkoutStep (inflightAt cart Phase.modalOpen) CheckoutEv.dismiss =
      (initialCheckout cart, []) := rfl
  have noop : ∀ (ph : Phase) (n : Nat),
      runEvents (inflightAt cart ph) (List.replicate n CheckoutEv.press) =
        (inflightAt cart ph, []) :=
    fun _ n => presses_noop rfl n
  have hmain : runEvents (initialCheckout cart) (burstEvents n1 n2 n3 n4) =
      (inflightAt cart Phase.modalOpen,
        [PayCall.createOrderCall, PayCall.createPaymentCall]) := by
    unfold burstEvents
    rw [runEvents_cons, step1]
    dsimp only
    rw [runEvents_append, noop _ n1]
    dsimp only
    rw [runEvents_cons, step2]
    dsimp only
    rw [runEvents_append, noop _ n2]
    dsimp only
    rw [runEvents_cons, step3]
    dsimp only
    rw [runEvents_append, noop _ n3]
    dsimp only
    rw [runEvents_cons, step4]
    dsimp only
    rw [noop _ n4]
    rfl
  refine ⟨?_, ?_, ?_⟩
  · rw [hmain]
    rfl
  · rw [hmain]
    rfl
  · rw [runEvents_append, hmain]
    dsimp only
    rw [runEvents_cons, step5]
    dsimp only
    rw [runEvents_cons, step1]
    dsimp only
    rfl

/-- C3: in the Razorpay success callback, the `verifyPayment` call is awaited first;
only after it succeeds is the cart cleared and the success popup set (the call trace is
`[verifyPaymentCall, clearCartCall]`, in that order, and `orderSuccess` becomes true).
If verification throws, the `catch` branch runs instead: the cart is untouched and no
success state is shown in that execution. -/
theorem verify_before_clear (s : CheckoutState) (h : s.phase = Phase.modalOpen) :
    (checkoutStep s (CheckoutEv.paySuccess true)).2 =
      [PayCall.verifyPaymentCall, PayCall.clearCartCall] ∧
    (checkoutStep s (CheckoutEv.paySuccess true)).1.orderSuccess = true ∧
    (checkoutStep s (CheckoutEv.paySuccess true)).1.cart = [] ∧
    (checkoutStep s (CheckoutEv.paySuccess false)).2 = [PayCall.verifyPaymentCall] ∧
    (checkoutStep s (CheckoutEv.paySuccess false)).1.cart = s.cart ∧
    (checkoutStep s (CheckoutEv.paySuccess false)).1.orderSuccess = s.orderSuccess := by
  simp [checkoutStep, h, releaseLatch]

/-- Witness for C3 at the concrete modal-open state. -/
theorem verify_before_clear_witness :
    (checkoutStep modalDemo (CheckoutEv.paySuccess true)).2 =
      [PayCall.verifyPaymentCall, PayCall.clearCartCall] ∧
    (checkoutStep modalDemo (CheckoutEv.paySuccess true)).1.orderSuccess = true ∧
    (checkoutStep modalDemo (CheckoutEv.paySuccess true)).1.cart = [] ∧
    (checkoutStep modalDemo (CheckoutEv.paySuccess false)).2 = [PayCall.verifyPaymentCall] ∧
    (checkoutStep modalDemo (CheckoutEv.paySuccess false)).1.cart = modalDemo.cart ∧
    (checkoutStep modalDemo (CheckoutEv.paySuccess false)).1.orderSuccess =
      modalDemo.orderSuccess :=
  verify_before_clear modalDemo rfl

/-- C4: with the payment widget open, `ondismiss` and the `payment.failed` listener
only release the latch and processing flag (`releaseLatch`) and issue no server call —
in particular no cart-clearing and no order-mutating call — leaving the cart untouched
(hence non-empty if it was); the pending order can then be retried through
`handleContinuePayment`, which issues exactly one new payment-creation call. -/
theorem dismiss_keeps_cart (s : CheckoutState) (h : s.phase = Phase.modalOpen) :
    checkoutStep s CheckoutEv.dismiss = (releaseLatch s, []) ∧
    checkoutStep s CheckoutEv.payFailed = (releaseLatch s, []) ∧
    (releaseLatch s).cart = s.cart ∧
    (s.cart ≠ [] → (checkoutStep s CheckoutEv.dismiss).1.cart ≠ []) ∧
    ∀ orderId : String,
      continuePayment { paymentInFlight := false, payingOrderId := none } orderId =
        ({ paymentInFlight := true, payingOrderId := some orderId },
          [PayCall.createPaymentCall]) := by
  refine ⟨by simp [checkoutStep, h], by simp [checkoutStep, h], rfl, ?_, fun orderId => rfl⟩
  intro hne
  simp [checkoutStep, h, releaseLatch]
  exact hne

/-- Witness for C4 at the concrete modal-open state (whose cart is non-empty). -/
theorem dismiss_keeps_cart_witness :
    checkoutStep modalDemo CheckoutEv.dismiss = (releaseLatch modalDemo, []) ∧
    checkoutStep modalDemo CheckoutEv.payFailed = (releaseLatch modalDemo, []) ∧
    (releaseLatch modalDemo).cart = modalDemo.cart ∧
    (modalDemo.cart ≠ [] → (checkoutStep modalDemo CheckoutEv.dismiss).1.cart ≠ []) ∧
    ∀ orderId : String,
      continuePayment { paymentInFlight := false, payingOrderId := none } orderId =
        ({ paymentInFlight := true, payingOrderId := some orderId },
          [PayCall.createPaymentCall]) :=
  dismiss_keeps_cart modalDemo rfl

/-- C5: at login with a non-empty persisted guest cart, `refreshCart` issues exactly
one merge call carrying the guest items' payload, removes the `'guest_cart'` key
whether the merge succeeded or threw (the inner `finally`), attempts no retry (the call
list holds a single merge), and the resulting item state is the server's `getCart`
response. -/
theorem merge_best_effort (guestItems : List CartItem) (h : guestItems ≠ [])
    (mergeOk : Bool) (serverItems : List CartItem) :
    (refreshCart (StoredCart.val guestItems) mergeOk serverItems).calls =
      [ApiCall.mergeCartCall (mergePayload guestItems), ApiCall.getCartCall] ∧
    (refreshCart (StoredCart.val guestItems) mergeOk serverItems).store =
      StoredCart.absent ∧
    (refreshCart (StoredCart.val guestItems) mergeOk serverItems).items = serverItems ∧
    (refreshCart (StoredCart.val guestItems) true serverItems).calls =
      (refreshCart (StoredCart.val guestItems) false serverItems).calls ∧
    (refreshCart (StoredCart.val guestItems) true serverItems).store =
      (refreshCart (StoredCart.val guestItems) false serverItems).store ∧
    (refreshCart (StoredCart.val guestItems) true serverItems).items =
      (refreshCart (StoredCart.val guestItems) false serverItems).items := by
  have hlen : guestItems.length > 0 := List.length_pos.mpr h
  simp [refreshCart, hlen]

/-- Witness for C5 on the demo guest cart. -/
theorem merge_best_effort_witness :
    (refreshCart (StoredCart.val demoCart.items) true []).calls =
      [ApiCall.mergeCartCall (mergePayload demoCart.items), ApiCall.getCartCall] ∧
    (refreshCart (StoredCart.val demoCart.items) true []).store = StoredCart.absent ∧
    (refreshCart (StoredCart.val demoCart.items) true []).items = [] ∧
    (refreshCart (StoredCart.val demoCart.items) true []).calls =
      (refreshCart (StoredCart.val demoCart.items) false []).calls ∧
    (refreshCart (StoredCart.val demoCart.items) true []).store =
      (refreshCart (StoredCart.val demoCart.items) false []).store ∧
    (refreshCart (StoredCart.val demoCart.items) true []).items =
      (refreshCart (StoredCart.val demoCart.items) false []).items :=
  merge_best_effort demoCart.items (by decide) true []

/-- C6 (amended, web client): the axios interceptor performs at most one refresh and at
most one retry per original request (the `_retry` flag); tokens are cleared and the
client redirects to login exactly when the refresh itself fails; when the retried
request fails its error propagates with no further refresh, retry, token clearing or
redirect (a pass with `_retry` already set performs no action at all). -/
theorem refresh_retry_once (store : TokenStore) (firstStatus : HttpStatus)
    (refreshResult : Option (String × Option String)) (retryStatus : HttpStatus) :
    ((handleResponse store false firstStatus refreshResult retryStatus).2.1.count
        AuthAction.refreshCall ≤ 1) ∧
    ((handleResponse store false firstStatus refreshResult retryStatus).2.1.count
        AuthAction.retryCall ≤ 1) ∧
    (AuthAction.clearTokens ∈
        (handleResponse store false firstStatus refreshResult retryStatus).2.1 ↔
      firstStatus = HttpStatus.unauthorized ∧ refreshResult = none) ∧
    (AuthAction.redirectLogin ∈
        (handleResponse store false firstStatus refreshResult retryStatus).2.1 ↔
      firstStatus = HttpStatus.unauthorized ∧ refreshResult = none) ∧
    handleResponse store true firstStatus refreshResult retryStatus =
      (store, [], statusOutcome firstStatus) := by
  cases firstStatus <;> rcases refreshResult with _ | ⟨a, r⟩ <;>
    simp [handleResponse, statusOutcome]

/-- C6, counterexample: the mobile Dio interceptor has no retry guard, so with the
server answering 401 both to the original request and to its retry, one original
request triggers two token refreshes — more than the claimed at-most-one. -/
theorem mobile_refreshes_twice :
    (dioSend [HttpStatus.unauthorized, HttpStatus.unauthorized, HttpStatus.ok]
      true).1.count AuthAction.refreshCall = 2 := by
  decide

/-- C7 (amended): `updateQuantity` leaves the cart state and `localStorage` unchanged
both for a requested quantity below 1 (any mode) and, in guest mode, for a quantity
above the item's snapshot stock — but only the above-stock rejection surfaces a
notification; a quantity below 1 returns silently with no toast. -/
theorem updateQuantity_reject (isLoggedIn : Bool) (serverItems : List CartItem)
    (st : GuestCart) (pid : String) (q : Nat) :
    (q < 1 → updateQuantity isLoggedIn serverItems st pid q =
      { state := st, calls := [], notices := [] }) ∧
    (∀ it, (st.items[st.items.findIdx fun i => i.product_id == pid]?) = some it →
      1 ≤ q → it.product.stock < q →
      updateQuantity false serverItems st pid q =
        { state := st, calls := [],
          notices := [Notice.onlyStockAvailable it.product.stock] }) := by
  constructor
  · intro hq
    simp [updateQuantity, hq]
  · intro it hit hq hstock
    rcases List.getElem?_eq_some.mp hit with ⟨hlt, hget⟩
    unfold updateQuantity
    rw [if_neg (by omega : ¬ q < 1)]
    show updateQuantityGuest st pid q = _
    unfold updateQuantityGuest
    dsimp only
    rw [dif_pos hlt, hget, if_pos hstock]

/-- C7, counterexample: a requested quantity of 0 — below 1 — on a cart holding the
product is dropped with no notification at all (`updateQuantity` just returns), so the
claimed toast for below-1 values does not exist. -/
theorem updateQuantity_zero_silent :
    (updateQuantity false [] demoCart "p1" 0).notices = [] ∧
    (updateQuantity false [] demoCart "p1" 0).state = demoCart := by
  decide

/-- Witness for C7 on the demo cart: quantity 0 is silently ignored; quantity 25
(stock 20) is rejected with the stock toast and no state change. -/
theorem updateQuantity_reject_witness :
    updateQuantity false [] demoCart "p1" 0 =
      { state := demoCart, calls := [], notices := [] } ∧
    updateQuantity false [] demoCart "p1" 25 =
      { state := demoCart, calls := [], notices := [Notice.onlyStockAvailable 20] } := by
  constructor
  · exact (updateQuantity_reject false [] demoCart "p1" 0).1 (by decide)
  · exact (updateQuantity_reject false [] demoCart "p1" 25).2
      { id := none, product_id := "p1", quantity := 1, product := pDemo }
      (by decide) (by decide) (by decide)

/-- C9: `logout` removes both tokens, sets `isLoggedIn` to false and clears the cached
query state, whether the server logout endpoint call succeeds or throws. -/
theorem logout_clears_all (serverOk : Bool) (st : AuthState) :
    logout serverOk st =
      { access := none, refresh := none, isLoggedIn := false, queryCache := [] } := rfl

/-- C10: `addToCart` with an inactive product, or with stock strictly below the
requested quantity, surfaces the availability toast and changes nothing: same cart
state (and hence same `localStorage`), no server call — in guest and authenticated
mode alike. -/
theorem addToCart_rejects_unavailable (isLoggedIn : Bool) (serverItems : List CartItem)
    (st : GuestCart) (p : Product) (q : Nat)
    (h : p.is_active = false ∨ p.stock < q) :
    addToCart isLoggedIn serverItems st p q =
      { state := st, calls := [], notices := [Notice.productNotAvailable] } := by
  unfold addToCart
  have hc : (!p.is_active || decide (p.stock < q)) = true := by
    rcases h with h | h
    · simp [h]
    · simp [h]
  rw [if_pos hc]

/-- Witness for C10: adding an inactive product to the empty cart while logged in
changes nothing and surfaces the toast. -/
theorem addToCart_rejects_unavailable_witness :
    addToCart true [] emptyCart
      { id := "p2", name := "Idol", price := 500, images := [], slug := "idol",
        stock := 5, is_active := false } 1 =
      { state := emptyCart, calls := [], notices := [Notice.productNotAvailable] } :=
  addToCart_rejects_unavailable true [] emptyCart _ 1 (Or.inl rfl)

end CKM
